import Mathlib

/-!
Shallow embedding of `tools/pre-push-check.py` (ICE-WEBAPP pre-push quality
gate).  The script is a single linear procedure: bypass check via two
environment variables, run the test suite as a subprocess, read and parse
`coverage/coverage-summary.json`, compare four coverage percentages against
fixed thresholds, best-effort upload, and exit 0 or 1.

Modelling choices:
* Python values produced by `json.load` are modelled by `PyVal`
  (None/bool/int/float/str/list/dict).  Python floats are modelled as
  rationals (`ℚ`); the script only compares them against integer thresholds
  and the coverage data carries finite decimal percentages, so IEEE
  rounding and the non-finite values inf/nan are outside the model.
* Expressions that can raise are modelled in `Except`/`Option`
  (`pyGet` for `.get`, which raises `AttributeError` on a non-dict
  receiver; `pyFloat` for `float(...)`, which raises `ValueError` on a
  bad string, `TypeError` on None/dict/list, and `OverflowError` on an
  integer too large for a double).  `safe_float` catches only the first
  two, as its `except (ValueError, TypeError)` clause does; an
  `OverflowError` escapes it and is caught by the outer handler of the
  ingestion stage, which zeroes all four metrics.
* The observable behaviour of one run is an exit code together with a
  trace of `Event`s, one event per print / subprocess call / file access,
  in program order.  The nondeterministic environment (variable values,
  child-process results, file contents) is packaged in a `World` record
  that the run consults.
* `DEBUG` is `False` in the source, so the `if DEBUG:` print blocks are
  dead code and contribute no events.
-/

namespace PrePushCheck

/-- Python values as produced by `json.load`, plus `None`.  A Python float
is modelled as a rational number. -/
inductive PyVal where
  | none
  | bool (b : Bool)
  | int (n : Int)
  | float (q : ℚ)
  | str (s : String)
  | list (xs : List PyVal)
  | dict (fields : List (String × PyVal))

/-- Module-level flag, `False` in the source; all `if DEBUG:` print blocks
are dead code and contribute no events. -/
def DEBUG : Bool := false

/-- Lookup in a dict modelled as an association list; with duplicate keys
the last binding wins, as for a Python dict built by `json.load`. -/
def lookupLast (fields : List (String × PyVal)) (key : String) : Option PyVal :=
  fields.foldl (fun acc kv => if kv.1 == key then some kv.2 else acc) Option.none

/-- Python `v.get(key, default)`.  Only a dict has a `.get` method; on any
other receiver the attribute access raises `AttributeError`. -/
def pyGet (v : PyVal) (key : String) (default : PyVal) : Except String PyVal :=
  match v with
  | PyVal.dict fields => Except.ok ((lookupLast fields key).getD default)
  | _ => Except.error "AttributeError"

/-- All characters are decimal digits (vacuously true of the empty list). -/
def allDigits (cs : List Char) : Bool := cs.all Char.isDigit

/-- Numeric value of a list of decimal digit characters. -/
def natOfDigits (cs : List Char) : Nat :=
  cs.foldl (fun a c => 10 * a + (c.toNat - 48)) 0

/-- Leading sign of a numeric literal, as accepted by Python `float`. -/
def parseSign (cs : List Char) : ℚ × List Char :=
  match cs with
  | '-' :: rest => (-1, rest)
  | '+' :: rest => (1, rest)
  | rest => (1, rest)

/-- The digits-and-dot part of a float literal: `digits`, `digits.digits`,
`digits.`, or `.digits`. -/
def parseFloatMantissa (cs : List Char) : Option ℚ :=
  let p := cs.span (fun c => c != '.')
  match p.2 with
  | [] => if !p.1.isEmpty && allDigits p.1 then some (natOfDigits p.1 : ℚ) else Option.none
  | _ :: f =>
    if (!p.1.isEmpty || !f.isEmpty) && allDigits p.1 && allDigits f then
      some ((natOfDigits p.1 : ℚ) + (natOfDigits f : ℚ) / (10 : ℚ) ^ f.length)
    else Option.none

/-- The exponent part after `e`/`E`: optional sign then nonempty digits. -/
def parseExpPart (cs : List Char) : Option Int :=
  let p : Int × List Char :=
    match cs with
    | '-' :: rest => (-1, rest)
    | '+' :: rest => (1, rest)
    | rest => (1, rest)
  if !p.2.isEmpty && allDigits p.2 then some (p.1 * (natOfDigits p.2 : Int))
  else Option.none

/-- Python `float(s)` on a string: strip surrounding whitespace, optional
sign, mantissa, optional exponent.  `none` models `ValueError`.  Not
modelled (never hit by the coverage data): underscore digit separators and
the non-finite literals inf/infinity/nan, which have no rational value. -/
def pyStrToFloat (s : String) : Option ℚ :=
  let cs := ((s.toList.dropWhile Char.isWhitespace).reverse.dropWhile
    Char.isWhitespace).reverse
  let sg := parseSign cs
  let p := sg.2.span (fun c => !(c == 'e' || c == 'E'))
  match p.2 with
  | [] => (parseFloatMantissa p.1).map (fun q => sg.1 * q)
  | _ :: expPart => do
    let mv ← parseFloatMantissa p.1
    let ev ← parseExpPart expPart
    some (sg.1 * mv * (10 : ℚ) ^ ev)

/-- Exceptions `float(value)` can raise: `ValueError` on an unparseable
string, `TypeError` on None/dict/list, `OverflowError` on an integer too
large for a double. -/
inductive FloatError where
  | valueError
  | typeError
  | overflowError
deriving DecidableEq

/-- Smallest magnitude at which CPython `float(int)` raises
`OverflowError`: an integer rounds (half-to-even) to the out-of-range
2^1024 exactly when its magnitude reaches 2^1024 - 2^970, the halfway
point above the largest finite double 2^1024 - 2^971.  Written as a
numeral; `OVERFLOW_BOUND_eq` below checks it against the power form. -/
def OVERFLOW_BOUND : Nat := 179769313486231580793728971405303415079934132710037826936173778980444968292764750946649017977587207096330286416692887910946555547851940402630657488671505820681908902000708383676273854845817711531764475730270069855571366959622842914819860834936475292719074168444365510704342711559699508093042880177904174497792

/-- Python `float(value)` on an arbitrary value.  A convertible integer
is modelled by its exact rational value (double rounding ignored, as for
`PyVal.float`); an integer at or beyond `OVERFLOW_BOUND` in magnitude
raises `OverflowError`. -/
def pyFloat : PyVal → Except FloatError ℚ
  | PyVal.int n =>
    if n.natAbs < OVERFLOW_BOUND then Except.ok (n : ℚ)
    else Except.error FloatError.overflowError
  | PyVal.float q => Except.ok q
  | PyVal.bool b => Except.ok (if b then 1 else 0)
  | PyVal.str s =>
    match pyStrToFloat s with
    | some q => Except.ok q
    | Option.none => Except.error FloatError.valueError
  | _ => Except.error FloatError.typeError

/-- Python `value == 'Unknown'`: true exactly for the string `"Unknown"`
(cross-type `==` is `False` and raises nothing for `json.load` values). -/
def isUnknownStr : PyVal → Bool
  | PyVal.str s => s == "Unknown"
  | _ => false

/-- The script's `safe_float(value, default=0.0)`: return `default` for
the sentinel `'Unknown'`, otherwise `float(value)`, with exactly
`ValueError` and `TypeError` caught and mapped to `default`.  An
`OverflowError` is not in the `except` tuple and propagates out of the
function. -/
def safe_float (value : PyVal) (default : ℚ) : Except String ℚ :=
  if isUnknownStr value then Except.ok default
  else
    match pyFloat value with
    | Except.ok q => Except.ok q
    | Except.error FloatError.valueError => Except.ok default
    | Except.error FloatError.typeError => Except.ok default
    | Except.error FloatError.overflowError => Except.error "OverflowError"

/-- Result of `subprocess.run`: the child completed with a return code, or
launching/running it raised an exception with a message. -/
inductive Subproc where
  | completed (returncode : Int)
  | raised (msg : String)

/-- State of `coverage/coverage-summary.json` as the run finds it:
absent; present but `open`/`json.load` raises; or parsed to a value. -/
inductive SummaryFile where
  | absent
  | readError (msg : String)
  | parsed (coverage_data : PyVal)

/-- The environment of one run: the two bypass variables
(`os.environ.get`, so `Option String`), the test-runner subprocess result,
the summary file state, existence of `coverage/lcov.info`, and the upload
subprocess result.  The last three are consulted only if control reaches
them. -/
structure World where
  skipHooks : Option String
  skipPrePush : Option String
  testRun : Subproc
  summary : SummaryFile
  lcovExists : Bool
  uploadRun : Subproc

/-- Observable events of a run, in program order.  Each constructor stands
for one print statement, subprocess invocation, or file access of the
script (doc strings give the printed text). -/
inductive Event where
  /-- print of the skip notice (SKIP_HOOKS=1 or SKIP_PRE_PUSH=1). -/
  | bypassNotice
  /-- print "Running ICE-WEBAPP pre-push quality gates...". -/
  | startBanner
  /-- print "Running tests with coverage...". -/
  | testsHeader
  /-- subprocess.run of pnpm run test:coverage. -/
  | runTestCmd
  /-- print "Tests failed! Fix tests before pushing or use git push --no-verify to bypass.". -/
  | testFailHint1
  /-- print "   Or set environment variable: SKIP_PRE_PUSH=1 git push". -/
  | testFailHint2
  /-- print of "Error running tests:" with the exception message. -/
  | testLaunchError (msg : String)
  /-- print "Checking coverage thresholds...". -/
  | thresholdsHeader
  /-- os.path.exists check on coverage/coverage-summary.json. -/
  | summaryExistsCheck
  /-- open of coverage/coverage-summary.json followed by json.load. -/
  | openSummaryFile
  /-- print of "Error parsing coverage data:" with the exception message. -/
  | parseErrorWarn (msg : String)
  /-- print "   Attempting to continue with minimal checks..." after a parse error. -/
  | parseErrorHint
  /-- print "No coverage summary found (coverage/coverage-summary.json)". -/
  | noSummaryWarn
  /-- print "   Attempting to continue with minimal checks..." after a missing summary. -/
  | noSummaryHint
  /-- print of one threshold line: metric name, actual value, threshold,
  and whether it passed (checkmark) or failed (cross). -/
  | metricLine (name : String) (value : ℚ) (threshold : Nat) (passed : Bool)
  /-- print "Uploading coverage to Codacy...". -/
  | uploadHeader
  /-- os.path.exists check on coverage/lcov.info. -/
  | lcovExistsCheck
  /-- subprocess.run of pnpm run coverage:upload. -/
  | runUploadCmd
  /-- print "Coverage upload failed, but continuing...". -/
  | uploadFailWarn
  /-- print of "Coverage upload error:" with the message, "but continuing...". -/
  | uploadErrorWarn (msg : String)
  /-- print "No lcov.info coverage report found. Skipping upload.". -/
  | noLcovWarn
  /-- print "One or more coverage thresholds not met!". -/
  | finalFailMsg
  /-- print "   Fix coverage before pushing or use git push --no-verify to bypass.". -/
  | finalFailHint1
  /-- print "   Or set environment variable: SKIP_PRE_PUSH=1 git push". -/
  | finalFailHint2
  /-- print "All coverage thresholds met!". -/
  | finalPassMsg
  /-- print "Pre-push quality gates passed!". -/
  | gatesPassedMsg
deriving DecidableEq

/-- Threshold constant for lines coverage. -/
def LINES_THRESHOLD : Nat := 70
/-- Threshold constant for statements coverage. -/
def STATEMENTS_THRESHOLD : Nat := 70
/-- Threshold constant for functions coverage. -/
def FUNCTIONS_THRESHOLD : Nat := 65
/-- Threshold constant for branches coverage. -/
def BRANCHES_THRESHOLD : Nat := 60

/-- The four converted coverage values held by the run after ingestion. -/
structure Metrics where
  lines_cov : ℚ
  statements_cov : ℚ
  functions_cov : ℚ
  branches_cov : ℚ
deriving DecidableEq

/-- The body of the `try` block: `coverage_data.get('total', {})` then,
for each metric in source order, `total.get(name, {}).get('pct')`.  The
first raised `AttributeError` (a `.get` on a non-dict) aborts the whole
block. -/
def extractPcts (coverage_data : PyVal) :
    Except String (PyVal × PyVal × PyVal × PyVal) := do
  let total_coverage ← pyGet coverage_data "total" (PyVal.dict [])
  let lines_obj ← pyGet total_coverage "lines" (PyVal.dict [])
  let lines_pct ← pyGet lines_obj "pct" PyVal.none
  let statements_obj ← pyGet total_coverage "statements" (PyVal.dict [])
  let statements_pct ← pyGet statements_obj "pct" PyVal.none
  let functions_obj ← pyGet total_coverage "functions" (PyVal.dict [])
  let functions_pct ← pyGet functions_obj "pct" PyVal.none
  let branches_obj ← pyGet total_coverage "branches" (PyVal.dict [])
  let branches_pct ← pyGet branches_obj "pct" PyVal.none
  return (lines_pct, statements_pct, functions_pct, branches_pct)

/-- Remainder of the `try` block after `json.load`: the nested `pct`
extractions followed by the four `safe_float` conversions, in source
order.  An `AttributeError` raised during extraction or an
`OverflowError` escaping `safe_float` aborts the whole block. -/
def coverageTryBody (coverage_data : PyVal) : Except String Metrics := do
  let pcts ← extractPcts coverage_data
  let lines_cov ← safe_float pcts.1 0
  let statements_cov ← safe_float pcts.2.1 0
  let functions_cov ← safe_float pcts.2.2.1 0
  let branches_cov ← safe_float pcts.2.2.2 0
  return ⟨lines_cov, statements_cov, functions_cov, branches_cov⟩

/-- Stage 3, coverage ingestion: existence check, read/parse, extraction,
`safe_float` conversion; any exception in the `try` block (read error,
extraction error, or an `OverflowError` escaping `safe_float`) sets all
four metrics to 0 and prints the warning, as does an absent file. -/
def ingest : SummaryFile → Metrics × List Event
  | SummaryFile.absent =>
    (⟨0, 0, 0, 0⟩,
     [Event.summaryExistsCheck, Event.noSummaryWarn, Event.noSummaryHint])
  | SummaryFile.readError msg =>
    (⟨0, 0, 0, 0⟩,
     [Event.summaryExistsCheck, Event.openSummaryFile,
      Event.parseErrorWarn msg, Event.parseErrorHint])
  | SummaryFile.parsed coverage_data =>
    match coverageTryBody coverage_data with
    | Except.error msg =>
      (⟨0, 0, 0, 0⟩,
       [Event.summaryExistsCheck, Event.openSummaryFile,
        Event.parseErrorWarn msg, Event.parseErrorHint])
    | Except.ok m =>
      (m, [Event.summaryExistsCheck, Event.openSummaryFile])

/-- One `if cov < THRESHOLD:` block of stage 4: propagate or clear the
accumulated `checks_passed` flag and print the metric line. -/
def checkThreshold (checks_passed : Bool) (name : String) (cov : ℚ)
    (threshold : Nat) : Bool × Event :=
  if cov < (threshold : ℚ) then
    (false, Event.metricLine name cov threshold false)
  else
    (checks_passed, Event.metricLine name cov threshold true)

/-- Stage 4, threshold evaluation: `checks_passed = True`, then the four
checks in source order; all four always run. -/
def thresholdEval (m : Metrics) : Bool × List Event :=
  let c1 := checkThreshold true "Lines" m.lines_cov LINES_THRESHOLD
  let c2 := checkThreshold c1.1 "Statements" m.statements_cov STATEMENTS_THRESHOLD
  let c3 := checkThreshold c2.1 "Functions" m.functions_cov FUNCTIONS_THRESHOLD
  let c4 := checkThreshold c3.1 "Branches" m.branches_cov BRANCHES_THRESHOLD
  (c4.1, [c1.2, c2.2, c3.2, c4.2])

/-- Stage 5, best-effort upload: if `coverage/lcov.info` exists run the
upload command, downgrading any failure to a warning; otherwise warn and
skip.  Returns only events — no value flows out of this stage. -/
def uploadStage (lcovExists : Bool) (uploadRun : Subproc) : List Event :=
  if lcovExists then
    match uploadRun with
    | Subproc.completed rc =>
      if rc ≠ 0 then [Event.lcovExistsCheck, Event.runUploadCmd, Event.uploadFailWarn]
      else [Event.lcovExistsCheck, Event.runUploadCmd]
    | Subproc.raised msg =>
      [Event.lcovExistsCheck, Event.runUploadCmd, Event.uploadErrorWarn msg]
  else [Event.lcovExistsCheck, Event.noLcovWarn]

/-- The whole script: exit code (argument of `sys.exit`) and the event
trace of the run, in program order. -/
def gate (w : World) : Nat × List Event :=
  if w.skipHooks = some "1" ∨ w.skipPrePush = some "1" then
    (0, [Event.bypassNotice])
  else
    let pre := [Event.startBanner, Event.testsHeader, Event.runTestCmd]
    match w.testRun with
    | Subproc.raised msg => (1, pre ++ [Event.testLaunchError msg])
    | Subproc.completed returncode =>
      if returncode ≠ 0 then
        (1, pre ++ [Event.testFailHint1, Event.testFailHint2])
      else
        let ing := ingest w.summary
        let te := thresholdEval ing.1
        let uploadEvs := uploadStage w.lcovExists w.uploadRun
        let evs := pre ++ Event.thresholdsHeader :: ing.2 ++ te.2
          ++ Event.uploadHeader :: uploadEvs
        if te.1 then
          (0, evs ++ [Event.finalPassMsg, Event.gatesPassedMsg])
        else
          (1, evs ++ [Event.finalFailMsg, Event.finalFailHint1,
            Event.finalFailHint2])

/-- Either bypass variable holds the exact string "1". -/
def bypassRequested (w : World) : Prop :=
  w.skipHooks = some "1" ∨ w.skipPrePush = some "1"

instance (w : World) : Decidable (bypassRequested w) := by
  unfold bypassRequested; infer_instance

/-- All four converted metrics meet their thresholds (non-strictly). -/
def allThresholdsMet (m : Metrics) : Prop :=
  (LINES_THRESHOLD : ℚ) ≤ m.lines_cov ∧
  (STATEMENTS_THRESHOLD : ℚ) ≤ m.statements_cov ∧
  (FUNCTIONS_THRESHOLD : ℚ) ≤ m.functions_cov ∧
  (BRANCHES_THRESHOLD : ℚ) ≤ m.branches_cov

instance (m : Metrics) : Decidable (allThresholdsMet m) := by
  unfold allThresholdsMet; infer_instance

/-- Recognizer for the per-metric threshold print lines in a trace. -/
def isMetricLine : Event → Bool
  | Event.metricLine _ _ _ _ => true
  | _ => false

/-- A summary value whose "total" holds a well-formed "lines" entry
(pct 75) but maps "statements" to a bare number, so the second nested
`.get('pct')` raises `AttributeError` after "lines" was already
extracted. -/
def mixedSummaryExample : PyVal :=
  PyVal.dict [("total", PyVal.dict
    [("lines", PyVal.dict [("pct", PyVal.int 75)]),
     ("statements", PyVal.int 5)])]

/-- A run with no bypass, a clean test run, a fully passing parsed
summary (75/71/66/61), an LCOV file present, and a clean upload. -/
def passingWorld : World :=
  ⟨Option.none, Option.none, Subproc.completed 0,
   SummaryFile.parsed (PyVal.dict [("total", PyVal.dict
     [("lines", PyVal.dict [("pct", PyVal.int 75)]),
      ("statements", PyVal.dict [("pct", PyVal.int 71)]),
      ("functions", PyVal.dict [("pct", PyVal.int 66)]),
      ("branches", PyVal.dict [("pct", PyVal.int 61)])])]),
   true, Subproc.completed 0⟩

/-- The numeral `OVERFLOW_BOUND` is 2^1024 - 2^970. -/
lemma OVERFLOW_BOUND_eq : OVERFLOW_BOUND = 2 ^ 1024 - 2 ^ 970 := by
  norm_num [OVERFLOW_BOUND]

/-- Flag component of one threshold check: the accumulated flag stays set
exactly when the value is not below the threshold. -/
lemma checkThreshold_fst (p : Bool) (name : String) (cov : ℚ) (t : Nat) :
    (checkThreshold p name cov t).1 = (p && !(decide (cov < (t : ℚ)))) := by
  unfold checkThreshold
  by_cases h : cov < (t : ℚ) <;> simp [h]

/-- Event component of one threshold check: the printed line carries the
metric name, its value, its threshold, and the non-strict comparison
outcome. -/
lemma checkThreshold_snd (p : Bool) (name : String) (cov : ℚ) (t : Nat) :
    (checkThreshold p name cov t).2 =
      Event.metricLine name cov t (!(decide (cov < (t : ℚ)))) := by
  unfold checkThreshold
  by_cases h : cov < (t : ℚ) <;> simp [h]

/-- The accumulated `checks_passed` flag is true iff all four metrics meet
their thresholds. -/
lemma thresholdEval_fst_true_iff (m : Metrics) :
    (thresholdEval m).1 = true ↔ allThresholdsMet m := by
  simp [thresholdEval, checkThreshold_fst, allThresholdsMet, not_lt, and_assoc]

/-- Exit-code disposition of the whole run by stage outcome. -/
lemma gate_fst_cases (w : World) :
    (gate w).1 = if bypassRequested w then 0
      else match w.testRun with
        | Subproc.raised _ => 1
        | Subproc.completed rc =>
          if rc ≠ 0 then 1
          else if (thresholdEval (ingest w.summary).1).1 then 0 else 1 := by
  unfold gate bypassRequested
  by_cases hb : w.skipHooks = some "1" ∨ w.skipPrePush = some "1"
  · rw [if_pos hb, if_pos hb]
  · rw [if_neg hb, if_neg hb]
    cases htr : w.testRun with
    | raised msg => rfl
    | completed rc =>
      by_cases hrc : rc ≠ 0
      · simp [hrc]
      · by_cases hte : (thresholdEval (ingest w.summary).1).1 <;> simp [hrc, hte]

/-- The four metric lines of stage 4, in source order, one per metric. -/
lemma thresholdEval_snd (m : Metrics) :
    (thresholdEval m).2 =
      [Event.metricLine "Lines" m.lines_cov LINES_THRESHOLD
         (!(decide (m.lines_cov < (LINES_THRESHOLD : ℚ)))),
       Event.metricLine "Statements" m.statements_cov STATEMENTS_THRESHOLD
         (!(decide (m.statements_cov < (STATEMENTS_THRESHOLD : ℚ)))),
       Event.metricLine "Functions" m.functions_cov FUNCTIONS_THRESHOLD
         (!(decide (m.functions_cov < (FUNCTIONS_THRESHOLD : ℚ)))),
       Event.metricLine "Branches" m.branches_cov BRANCHES_THRESHOLD
         (!(decide (m.branches_cov < (BRANCHES_THRESHOLD : ℚ))))] := by
  simp [thresholdEval, checkThreshold_snd]

/-- Stage 3 prints no metric line. -/
lemma ingest_no_metricLine (s : SummaryFile) :
    ((ingest s).2).filter isMetricLine = [] := by
  cases s with
  | absent => rfl
  | readError msg => rfl
  | parsed v =>
    cases h : coverageTryBody v with
    | error msg => simp [ingest, h, isMetricLine]
    | ok m => simp [ingest, h, isMetricLine]

/-- Stage 5 prints no metric line. -/
lemma uploadStage_no_metricLine (lc : Bool) (u : Subproc) :
    (uploadStage lc u).filter isMetricLine = [] := by
  cases lc with
  | false => rfl
  | true =>
    cases u with
    | completed rc => by_cases h : rc ≠ 0 <;> simp [uploadStage, h, isMetricLine]
    | raised msg => simp [uploadStage, isMetricLine]

/-- Stage 3 never prints the bypass notice. -/
lemma ingest_no_bypassNotice (s : SummaryFile) :
    Event.bypassNotice ∉ (ingest s).2 := by
  cases s with
  | absent => simp [ingest]
  | readError msg => simp [ingest]
  | parsed v =>
    cases h : coverageTryBody v with
    | error msg => simp [ingest, h]
    | ok m => simp [ingest, h]

/-- Stage 4 never prints the bypass notice. -/
lemma thresholdEval_no_bypassNotice (m : Metrics) :
    Event.bypassNotice ∉ (thresholdEval m).2 := by
  rw [thresholdEval_snd]; simp

/-- Stage 5 never prints the bypass notice. -/
lemma uploadStage_no_bypassNotice (lc : Bool) (u : Subproc) :
    Event.bypassNotice ∉ uploadStage lc u := by
  cases lc with
  | false => simp [uploadStage]
  | true =>
    cases u with
    | completed rc => by_cases h : rc ≠ 0 <;> simp [uploadStage, h]
    | raised msg => simp [uploadStage]

/-- C1: the exit code is always 0 or 1, and it is 0 exactly when either
bypass variable equals "1", or the test runner exits 0 and all four
coverage metrics meet their thresholds; otherwise (nonzero test exit,
launch failure, or a missed threshold) it is 1. -/
theorem gate_exit_code_spec (w : World) :
    ((gate w).1 = 0 ∨ (gate w).1 = 1) ∧
    ((gate w).1 = 0 ↔ bypassRequested w ∨
      (w.testRun = Subproc.completed 0 ∧ allThresholdsMet (ingest w.summary).1)) := by
  rw [gate_fst_cases]
  by_cases hb : bypassRequested w
  · simp [hb]
  · rw [if_neg hb]
    cases htr : w.testRun with
    | raised msg => simp [hb]
    | completed rc =>
      by_cases hrc : rc ≠ 0
      · simp [hb, hrc]
      · push_neg at hrc; subst hrc
        rcases Bool.eq_false_or_eq_true (thresholdEval (ingest w.summary).1).1 with hte | hte
        · have ham : allThresholdsMet (ingest w.summary).1 :=
            (thresholdEval_fst_true_iff _).mp hte
          rw [hte]; simp [hb, ham]
        · have ham : ¬ allThresholdsMet (ingest w.summary).1 := by
            rw [← thresholdEval_fst_true_iff, hte]; simp
          rw [hte]; simp [hb, ham]

/-- C2: whenever SKIP_HOOKS or SKIP_PRE_PUSH equals "1", the run prints
the notice and exits 0 with no test-runner invocation, no coverage-file
existence check or read, and no upload. -/
theorem bypass_short_circuits (w : World) (h : bypassRequested w) :
    (gate w).1 = 0 ∧ (gate w).2 = [Event.bypassNotice] ∧
    Event.runTestCmd ∉ (gate w).2 ∧ Event.summaryExistsCheck ∉ (gate w).2 ∧
    Event.openSummaryFile ∉ (gate w).2 ∧ Event.runUploadCmd ∉ (gate w).2 := by
  unfold bypassRequested at h
  have hg : gate w = (0, [Event.bypassNotice]) := by unfold gate; rw [if_pos h]
  rw [hg]; simp

/-- Witness for C2 with SKIP_HOOKS set to "1". -/
theorem bypass_short_circuits_witness :
    (gate ⟨some "1", Option.none, Subproc.completed 1, SummaryFile.absent, true,
      Subproc.completed 0⟩).1 = 0 ∧
    (gate ⟨some "1", Option.none, Subproc.completed 1, SummaryFile.absent, true,
      Subproc.completed 0⟩).2 = [Event.bypassNotice] ∧
    Event.runTestCmd ∉ (gate ⟨some "1", Option.none, Subproc.completed 1,
      SummaryFile.absent, true, Subproc.completed 0⟩).2 ∧
    Event.summaryExistsCheck ∉ (gate ⟨some "1", Option.none, Subproc.completed 1,
      SummaryFile.absent, true, Subproc.completed 0⟩).2 ∧
    Event.openSummaryFile ∉ (gate ⟨some "1", Option.none, Subproc.completed 1,
      SummaryFile.absent, true, Subproc.completed 0⟩).2 ∧
    Event.runUploadCmd ∉ (gate ⟨some "1", Option.none, Subproc.completed 1,
      SummaryFile.absent, true, Subproc.completed 0⟩).2 :=
  bypass_short_circuits _ (Or.inl rfl)

/-- C3: the thresholds are the fixed constants lines=70, statements=70,
functions=65, branches=60, and a metric line reports failure iff the
value is strictly below the threshold; equality (for example a value of
exactly 70 against the lines threshold) is reported as passing. -/
theorem threshold_strict_lt (prev : Bool) (name : String) (v : ℚ) (t : Nat) :
    LINES_THRESHOLD = 70 ∧ STATEMENTS_THRESHOLD = 70 ∧
    FUNCTIONS_THRESHOLD = 65 ∧ BRANCHES_THRESHOLD = 60 ∧
    ((checkThreshold prev name v t).2 = Event.metricLine name v t false ↔ v < (t : ℚ)) ∧
    ((checkThreshold prev name v t).2 = Event.metricLine name v t true ↔ (t : ℚ) ≤ v) ∧
    (checkThreshold prev "Lines" (70 : ℚ) LINES_THRESHOLD).2 =
      Event.metricLine "Lines" 70 70 true := by
  refine ⟨rfl, rfl, rfl, rfl, ?_, ?_, ?_⟩
  · by_cases h : v < (t : ℚ) <;> simp [checkThreshold, h]
  · by_cases h : v < (t : ℚ)
    · simp [checkThreshold, h, h.not_le]
    · simp [checkThreshold, h, not_lt.mp h]
  · norm_num [checkThreshold, LINES_THRESHOLD]

/-- C4: the claim that safe_float never raises is wrong of the code —
`float` on the integer 10^400 (parseable from JSON, too large for a
double) raises `OverflowError`, which the `except (ValueError,
TypeError)` clause does not catch, so safe_float raises there.  On the
claim's sample inputs 42, 42.5, "Unknown", "garbage", None, and a
missing-key lookup (which yields None) it does return 42.0, 42.5, 0.0,
0.0, 0.0, and 0.0, and the uncaught `OverflowError` is the only way it
fails to return a float. -/
theorem safe_float_overflow_uncaught :
    safe_float (PyVal.int (10 ^ 400)) 0 = Except.error "OverflowError" ∧
    pyFloat (PyVal.int (10 ^ 400)) = Except.error FloatError.overflowError ∧
    safe_float (PyVal.int 42) 0 = Except.ok 42 ∧
    safe_float (PyVal.float (85/2)) 0 = Except.ok (85/2) ∧
    safe_float (PyVal.str "Unknown") 0 = Except.ok 0 ∧
    safe_float (PyVal.str "garbage") 0 = Except.ok 0 ∧
    safe_float PyVal.none 0 = Except.ok 0 ∧
    (do
      let v ← pyGet (PyVal.dict []) "lines" (PyVal.dict [])
      pyGet v "pct" PyVal.none) = Except.ok PyVal.none ∧
    (∀ value default, (∃ q, safe_float value default = Except.ok q) ∨
      safe_float value default = Except.error "OverflowError") := by
  have hpow : ¬ ((10 : Int) ^ 400).natAbs < OVERFLOW_BOUND := by
    rw [Int.natAbs_pow]
    norm_num [OVERFLOW_BOUND]
  refine ⟨?_, ?_, rfl, rfl, rfl, rfl, rfl, rfl, ?_⟩
  · simp [safe_float, pyFloat, isUnknownStr, hpow]
  · simp [pyFloat, hpow]
  intro value default
  unfold safe_float
  by_cases hu : isUnknownStr value
  · rw [if_pos hu]; exact Or.inl ⟨default, rfl⟩
  · rw [if_neg hu]
    cases hq : pyFloat value with
    | ok q => exact Or.inl ⟨q, rfl⟩
    | error e =>
      cases e with
      | valueError => exact Or.inl ⟨default, rfl⟩
      | typeError => exact Or.inl ⟨default, rfl⟩
      | overflowError => exact Or.inr rfl

/-- C5: a nonzero test-runner exit or a launch exception makes the run
print the failure guidance (both bypass hints for the nonzero-exit case,
the error message for the launch-failure case) and exit 1, with no
summary-file existence check or read and no upload. -/
theorem test_failure_aborts_early (w : World) (hb : ¬ bypassRequested w)
    (hf : (∃ rc, rc ≠ 0 ∧ w.testRun = Subproc.completed rc) ∨
      (∃ msg, w.testRun = Subproc.raised msg)) :
    (gate w).1 = 1 ∧
    Event.summaryExistsCheck ∉ (gate w).2 ∧
    Event.openSummaryFile ∉ (gate w).2 ∧
    Event.lcovExistsCheck ∉ (gate w).2 ∧
    Event.runUploadCmd ∉ (gate w).2 ∧
    (∀ rc, rc ≠ 0 → w.testRun = Subproc.completed rc →
      Event.testFailHint1 ∈ (gate w).2 ∧ Event.testFailHint2 ∈ (gate w).2) ∧
    (∀ msg, w.testRun = Subproc.raised msg →
      Event.testLaunchError msg ∈ (gate w).2) := by
  unfold bypassRequested at hb
  rcases hf with ⟨rc, hrc, htr⟩ | ⟨msg, htr⟩
  · have hg : gate w = (1, [Event.startBanner, Event.testsHeader, Event.runTestCmd,
        Event.testFailHint1, Event.testFailHint2]) := by
      unfold gate; rw [if_neg hb, htr]; simp [hrc]
    rw [hg]
    refine ⟨rfl, by simp, by simp, by simp, by simp, fun _ _ _ => by simp, ?_⟩
    intro m hm; rw [htr] at hm; simp at hm
  · have hg : gate w = (1, [Event.startBanner, Event.testsHeader, Event.runTestCmd,
        Event.testLaunchError msg]) := by
      unfold gate; rw [if_neg hb, htr]; simp
    rw [hg]
    refine ⟨rfl, by simp, by simp, by simp, by simp, ?_, ?_⟩
    · intro rc2 h2 h3; rw [htr] at h3; simp at h3
    · intro msg2 hmsg; rw [htr] at hmsg
      simp at hmsg; subst hmsg; simp

/-- Witness for C5 with a test runner exiting 2. -/
theorem test_failure_aborts_early_witness :
    (gate ⟨Option.none, some "yes", Subproc.completed 2, SummaryFile.absent, true,
      Subproc.completed 0⟩).1 = 1 ∧
    Event.testFailHint1 ∈ (gate ⟨Option.none, some "yes", Subproc.completed 2,
      SummaryFile.absent, true, Subproc.completed 0⟩).2 := by
  have h := test_failure_aborts_early
    ⟨Option.none, some "yes", Subproc.completed 2, SummaryFile.absent, true,
      Subproc.completed 0⟩ (by decide) (Or.inl ⟨2, by decide, rfl⟩)
  exact ⟨h.1, (h.2.2.2.2.2.1 2 (by decide) rfl).1⟩

/-- C6: with no bypass, a clean test run, and the summary file absent,
all four metrics default to 0, every threshold line reports failure, and
the run exits 1. -/
theorem missing_summary_exits_one (w : World) (hb : ¬ bypassRequested w)
    (ht : w.testRun = Subproc.completed 0) (hs : w.summary = SummaryFile.absent) :
    (ingest w.summary).1 = ⟨0, 0, 0, 0⟩ ∧
    (thresholdEval (ingest w.summary).1).2 =
      [Event.metricLine "Lines" 0 LINES_THRESHOLD false,
       Event.metricLine "Statements" 0 STATEMENTS_THRESHOLD false,
       Event.metricLine "Functions" 0 FUNCTIONS_THRESHOLD false,
       Event.metricLine "Branches" 0 BRANCHES_THRESHOLD false] ∧
    (gate w).1 = 1 := by
  have h3 : (gate w).1 = 1 := by
    rw [gate_fst_cases, if_neg hb, ht, hs]; decide
  rw [hs]
  exact ⟨rfl, by decide, h3⟩

/-- Witness for C6 with a minimal world whose summary file is absent. -/
theorem missing_summary_exits_one_witness :
    (gate ⟨Option.none, Option.none, Subproc.completed 0, SummaryFile.absent, false,
      Subproc.completed 0⟩).1 = 1 :=
  (missing_summary_exits_one ⟨Option.none, Option.none, Subproc.completed 0,
    SummaryFile.absent, false, Subproc.completed 0⟩ (by decide) rfl rfl).2.2

/-- C7: the upload stage never influences the exit code — replacing the
LCOV-file state and the upload subprocess result by anything leaves the
exit code unchanged — and on every run that reaches the upload stage the
exit code is determined solely by the accumulated threshold flag. -/
theorem upload_never_influences_exit (w : World) (lc : Bool) (u : Subproc) :
    (gate { w with lcovExists := lc, uploadRun := u }).1 = (gate w).1 ∧
    (¬ bypassRequested w → w.testRun = Subproc.completed 0 →
      (gate w).1 = if (thresholdEval (ingest w.summary).1).1 then 0 else 1) := by
  constructor
  · rw [gate_fst_cases, gate_fst_cases]; rfl
  · intro hb ht
    rw [gate_fst_cases, if_neg hb, ht]
    simp

/-- Witness for C7: removing the LCOV file and making the uploader raise
leaves the passing run's exit code 0. -/
theorem upload_never_influences_exit_witness :
    (gate { passingWorld with lcovExists := false, uploadRun := Subproc.raised "boom" }).1 = (gate passingWorld).1 ∧
    (gate passingWorld).1 = 0 := by
  have h := upload_never_influences_exit passingWorld false (Subproc.raised "boom")
  refine ⟨h.1, ?_⟩
  rw [h.2 (by decide) rfl]; decide

/-- C8: every run that reaches threshold evaluation prints each of the
four metrics exactly once — the metric lines of the whole trace are
precisely one line per metric, in order, each carrying its actual value,
its threshold, and its own pass/fail outcome, with no early exit. -/
theorem metric_lines_printed_once (w : World) (hb : ¬ bypassRequested w)
    (ht : w.testRun = Subproc.completed 0) :
    ((gate w).2).filter isMetricLine =
      [Event.metricLine "Lines" (ingest w.summary).1.lines_cov LINES_THRESHOLD
         (!(decide ((ingest w.summary).1.lines_cov < (LINES_THRESHOLD : ℚ)))),
       Event.metricLine "Statements" (ingest w.summary).1.statements_cov STATEMENTS_THRESHOLD
         (!(decide ((ingest w.summary).1.statements_cov < (STATEMENTS_THRESHOLD : ℚ)))),
       Event.metricLine "Functions" (ingest w.summary).1.functions_cov FUNCTIONS_THRESHOLD
         (!(decide ((ingest w.summary).1.functions_cov < (FUNCTIONS_THRESHOLD : ℚ)))),
       Event.metricLine "Branches" (ingest w.summary).1.branches_cov BRANCHES_THRESHOLD
         (!(decide ((ingest w.summary).1.branches_cov < (BRANCHES_THRESHOLD : ℚ))))] := by
  unfold bypassRequested at hb
  rcases Bool.eq_false_or_eq_true (thresholdEval (ingest w.summary).1).1 with hte | hte <;>
    simp [gate, hb, ht, hte, List.filter_append, ingest_no_metricLine,
      uploadStage_no_metricLine, thresholdEval_snd, isMetricLine]

/-- Witness for C8 on the fully passing world. -/
theorem metric_lines_printed_once_witness :
    ((gate passingWorld).2).filter isMetricLine =
      [Event.metricLine "Lines" 75 LINES_THRESHOLD true,
       Event.metricLine "Statements" 71 STATEMENTS_THRESHOLD true,
       Event.metricLine "Functions" 66 FUNCTIONS_THRESHOLD true,
       Event.metricLine "Branches" 61 BRANCHES_THRESHOLD true] := by
  rw [metric_lines_printed_once passingWorld (by decide) rfl]; decide

/-- C9: the bypass matches only the exact string "1" — for any other
values of both variables (unset, "true", "yes", ...) the bypass notice is
never printed and the test stage runs. -/
theorem bypass_requires_exact_one (w : World)
    (h1 : w.skipHooks ≠ some "1") (h2 : w.skipPrePush ≠ some "1") :
    Event.bypassNotice ∉ (gate w).2 ∧ Event.runTestCmd ∈ (gate w).2 := by
  have hb : ¬ (w.skipHooks = some "1" ∨ w.skipPrePush = some "1") := not_or.mpr ⟨h1, h2⟩
  unfold gate
  rw [if_neg hb]
  cases htr : w.testRun with
  | raised msg => exact ⟨by simp, by simp⟩
  | completed rc =>
    by_cases hrc : rc ≠ 0
    · simp [hrc]
    · rcases Bool.eq_false_or_eq_true (thresholdEval (ingest w.summary).1).1 with hte | hte <;>
        simp [hrc, hte, ingest_no_bypassNotice, thresholdEval_no_bypassNotice,
          uploadStage_no_bypassNotice]

/-- Witness for C9 with the truthy-looking values "true" and "yes". -/
theorem bypass_requires_exact_one_witness :
    Event.bypassNotice ∉ (gate ⟨some "true", some "yes", Subproc.completed 0,
      SummaryFile.absent, false, Subproc.completed 0⟩).2 ∧
    Event.runTestCmd ∈ (gate ⟨some "true", some "yes", Subproc.completed 0,
      SummaryFile.absent, false, Subproc.completed 0⟩).2 :=
  bypass_requires_exact_one ⟨some "true", some "yes", Subproc.completed 0,
    SummaryFile.absent, false, Subproc.completed 0⟩ (by decide) (by decide)

/-- C10: coverage-ingestion error recovery is all-or-nothing — a read
error or any extraction exception zeroes all four metrics together; in
the example, "lines" extracts successfully to 75, yet the extraction
error raised on "statements" (a non-object) discards it and all four
metrics are 0. -/
theorem ingestion_all_or_nothing :
    (∀ msg, (ingest (SummaryFile.readError msg)).1 = ⟨0, 0, 0, 0⟩) ∧
    (∀ coverage_data msg, extractPcts coverage_data = Except.error msg →
      ingest (SummaryFile.parsed coverage_data) =
        (⟨0, 0, 0, 0⟩, [Event.summaryExistsCheck, Event.openSummaryFile,
          Event.parseErrorWarn msg, Event.parseErrorHint])) ∧
    ((do
      let t ← pyGet mixedSummaryExample "total" (PyVal.dict [])
      let o ← pyGet t "lines" (PyVal.dict [])
      pyGet o "pct" PyVal.none) = Except.ok (PyVal.int 75)) ∧
    extractPcts mixedSummaryExample = Except.error "AttributeError" ∧
    (ingest (SummaryFile.parsed mixedSummaryExample)).1 = ⟨0, 0, 0, 0⟩ := by
  refine ⟨fun msg => rfl, ?_, rfl, rfl, rfl⟩
  intro coverage_data msg h
  have hc : coverageTryBody coverage_data = Except.error msg := by
    unfold coverageTryBody
    rw [h]
    rfl
  simp [ingest, hc]

/-- Witness for C10 on the partially extractable summary value. -/
theorem ingestion_all_or_nothing_witness :
    ingest (SummaryFile.parsed mixedSummaryExample) =
      (⟨0, 0, 0, 0⟩, [Event.summaryExistsCheck, Event.openSummaryFile,
        Event.parseErrorWarn "AttributeError", Event.parseErrorHint]) :=
  ingestion_all_or_nothing.2.1 mixedSummaryExample "AttributeError" (by rfl)

end PrePushCheck
